import Mathlib

/-!
Verification of the relational-to-graph migration pipeline in `transfer.py`
(repository SOEN363).

The embedding models:
  * relational rows (PostgreSQL values, including SQL NULL and numeric/decimal
    values) for the tables read by the migration;
  * the Python-side projection of rows into flat record dictionaries,
    including Python truthiness (`if row[i]`), `float(...)` and `str(...)`
    coercions exactly as `transfer.py` performs them;
  * the property graph destination (labelled nodes with key/value properties,
    directed typed edges between node positions);
  * the Cypher statements the script issues: `UNWIND ... CREATE` bulk node
    creation, `UNWIND ... MATCH ... CREATE` bulk edge creation (cartesian
    match on the two id predicates), and `MATCH (n) DETACH DELETE n`;
  * the orchestration order of `main()` as an explicit operation list.
-/

/-- A PostgreSQL value as returned by the cursor: SQL NULL, an integer,
a text value, a `numeric`/`decimal` value (psycopg2 `Decimal`, modelled as a
rational), or a `date` (modelled by the string its Python `str()` yields). -/
inductive PgVal where
  | pnull
  | pint (n : Int)
  | pstr (s : String)
  | pnum (q : ℚ)
  | pdate (iso : String)
deriving DecidableEq

/-- Python truthiness of a fetched cell, as used by `if row[i]` guards in
`transfer.py`: `None`, `0`, `Decimal(0)` and `""` are falsy. -/
def pyTruthy : PgVal → Bool
  | .pnull => false
  | .pint n => n != 0
  | .pstr s => s != ""
  | .pnum q => q != 0
  | .pdate _ => true

/-- Python `str()` applied to a fetched cell; note `str(None) = "None"`. -/
def pyStr : PgVal → String
  | .pnull => "None"
  | .pint n => toString n
  | .pstr s => s
  | .pnum q => toString q
  | .pdate iso => iso

/-- Python `float()` applied to a numeric fetched cell (the script only
applies it behind a truthiness guard, so the argument is a nonzero number). -/
def pyFloat : PgVal → ℚ
  | .pint n => (n : ℚ)
  | .pnum q => q
  | _ => 0

/-- A property value stored on a graph node (Neo4j side): null, integer,
string, or float. -/
inductive Val where
  | null
  | int (n : Int)
  | str (s : String)
  | float (q : ℚ)
deriving DecidableEq

/-- Pass-through of a fetched cell into a record dictionary (no coercion in
the Python code: value is forwarded as-is). -/
def pgToVal : PgVal → Val
  | .pnull => .null
  | .pint n => .int n
  | .pstr s => .str s
  | .pnum q => .float q
  | .pdate iso => .str iso

/-- A row of `Publisher`, `Author`, `Category` or `Subject`: primary key and
name, as read by `SELECT * FROM <table>`. -/
structure NameRow where
  id : Int
  name : PgVal
deriving DecidableEq

/-- A row of the `Book` base table. -/
structure BookRow where
  book_id : Int
  isbn10 : PgVal
  isbn13 : PgVal
  title : PgVal
  subtitle : PgVal
  description : PgVal
  language_code : PgVal
  publication_year : PgVal
  page_count : PgVal
  maturity_rating : PgVal
  google_books_id : PgVal
  google_preview_link : PgVal
  google_info_link : PgVal
  google_canonical_link : PgVal
deriving DecidableEq

/-- A row of the `Ratings` satellite table. -/
structure RatingsRow where
  book_id : Int
  avg_rating : PgVal
  ratings_count : PgVal
deriving DecidableEq

/-- A row of the `PhysicalBook` satellite table. -/
structure PhysicalBookRow where
  book_id : Int
  format : PgVal
deriving DecidableEq

/-- A row of the `EBook` satellite table. -/
structure EBookRow where
  book_id : Int
  ebook_url : PgVal
deriving DecidableEq

/-- A row of the `Price` table. -/
structure PriceRow where
  price_id : Int
  book_id : Int
  country : PgVal
  on_sale_date : PgVal
  saleability : PgVal
  list_price : PgVal
  retail_price : PgVal
  list_price_currency_code : PgVal
  retail_price_currency_code : PgVal
  buy_link : PgVal
deriving DecidableEq

/-- A row of one of the join tables `BookAuthor`, `BookPublisher`,
`BookCategory`, `BookSubject`: `(book_id, <entity>_id)`. -/
structure JoinRow where
  book_id : Int
  entity_id : Int
deriving DecidableEq

/-- The relational source database state at extraction time. -/
structure RelDB where
  publishers : List NameRow
  authors : List NameRow
  categories : List NameRow
  subjects : List NameRow
  books : List BookRow
  ratings : List RatingsRow
  physicalBooks : List PhysicalBookRow
  ebooks : List EBookRow
  prices : List PriceRow
  bookAuthors : List JoinRow
  bookPublishers : List JoinRow
  bookCategories : List JoinRow
  bookSubjects : List JoinRow
deriving DecidableEq

/-- SQL LEFT JOIN padding: all matching rows, or a single NULL-padded row
when there is no match. -/
def joinMatches {α : Type} (l : List α) : List (Option α) :=
  if l.isEmpty then [none] else l.map some

/-- The result shape of the book extraction query:
`SELECT b.*, r.avg_rating, r.ratings_count, pb.format, eb.ebook_url`. -/
structure JoinedBookRow where
  book : BookRow
  avg_rating : PgVal
  ratings_count : PgVal
  format : PgVal
  ebook_url : PgVal
deriving DecidableEq

/-- The rows fetched by the book query: `FROM Book b LEFT JOIN Ratings r ON
b.book_id = r.book_id LEFT JOIN PhysicalBook pb ON b.book_id = pb.book_id
LEFT JOIN EBook eb ON b.book_id = eb.book_id`, with SQL left-join semantics
(each absent satellite contributes NULL columns; multiple satellite matches
multiply rows). -/
def fetchBooks (db : RelDB) : List JoinedBookRow :=
  db.books.flatMap fun b =>
    (joinMatches (db.ratings.filter fun r => r.book_id == b.book_id)).flatMap fun r =>
      (joinMatches (db.physicalBooks.filter fun p => p.book_id == b.book_id)).flatMap fun p =>
        (joinMatches (db.ebooks.filter fun e => e.book_id == b.book_id)).map fun e =>
          { book := b
            avg_rating := (r.map RatingsRow.avg_rating).getD .pnull
            ratings_count := (r.map RatingsRow.ratings_count).getD .pnull
            format := (p.map PhysicalBookRow.format).getD .pnull
            ebook_url := (e.map EBookRow.ebook_url).getD .pnull }

/-- A record dictionary built by the Python projection: ordered key/value
pairs. -/
abbrev Rec := List (String × Val)

/-- Dictionary/Cypher-map lookup: value of key `k`, null when absent
(a missing key of a Cypher map reads as null). -/
def getProp (props : Rec) (k : String) : Val :=
  match props.find? fun p => p.1 == k with
  | some p => p.2
  | none => .null

/-- Projection of a `Publisher`/`Author`/`Category`/`Subject` row:
`{"id": row[0], "name": row[1]}`. -/
def projectName (r : NameRow) : Rec :=
  [("id", .int r.id), ("name", pgToVal r.name)]

/-- Projection of a fetched book row (lines 178–197 of `transfer.py`):
all base columns pass through; `avg_rating` is `float(row[14]) if row[14]
else None`; `ratings_count`, `format`, `ebook_url` pass through. -/
def projectBook (row : JoinedBookRow) : Rec :=
  [("id", .int row.book.book_id),
   ("isbn10", pgToVal row.book.isbn10),
   ("isbn13", pgToVal row.book.isbn13),
   ("title", pgToVal row.book.title),
   ("subtitle", pgToVal row.book.subtitle),
   ("description", pgToVal row.book.description),
   ("language_code", pgToVal row.book.language_code),
   ("publication_year", pgToVal row.book.publication_year),
   ("page_count", pgToVal row.book.page_count),
   ("maturity_rating", pgToVal row.book.maturity_rating),
   ("google_books_id", pgToVal row.book.google_books_id),
   ("google_preview_link", pgToVal row.book.google_preview_link),
   ("google_info_link", pgToVal row.book.google_info_link),
   ("google_canonical_link", pgToVal row.book.google_canonical_link),
   ("avg_rating", if pyTruthy row.avg_rating then .float (pyFloat row.avg_rating) else .null),
   ("ratings_count", pgToVal row.ratings_count),
   ("format", pgToVal row.format),
   ("ebook_url", pgToVal row.ebook_url)]

/-- Projection of a `Price` row (lines 203–217 of `transfer.py`):
`on_sale_date` is `str(row[3])` unconditionally; `list_price` and
`retail_price` are `float(row[i]) if row[i] else None`. -/
def projectPrice (row : PriceRow) : Rec :=
  [("id", .int row.price_id),
   ("book_id", .int row.book_id),
   ("country", pgToVal row.country),
   ("on_sale_date", .str (pyStr row.on_sale_date)),
   ("saleability", pgToVal row.saleability),
   ("list_price", if pyTruthy row.list_price then .float (pyFloat row.list_price) else .null),
   ("retail_price", if pyTruthy row.retail_price then .float (pyFloat row.retail_price) else .null),
   ("list_price_currency_code", pgToVal row.list_price_currency_code),
   ("retail_price_currency_code", pgToVal row.retail_price_currency_code),
   ("buy_link", pgToVal row.buy_link)]

/-- Projection of a join-table row: `{"book_id": row[0], "entity_id": row[1]}`. -/
def projectJoin (r : JoinRow) : Rec :=
  [("book_id", .int r.book_id), ("entity_id", .int r.entity_id)]

/-- A graph node: label plus property map. -/
structure Node where
  label : String
  props : Rec
deriving DecidableEq

/-- A directed typed edge between two node positions of the node list. -/
structure Edge where
  relType : String
  src : Nat
  dst : Nat
deriving DecidableEq

/-- The destination property graph. -/
structure Graph where
  nodes : List Node
  edges : List Edge
deriving DecidableEq

/-- The property keys the book `CREATE` statement sets (lines 78–100). -/
def bookKeys : List String :=
  ["id", "isbn10", "isbn13", "title", "subtitle", "description",
   "language_code", "publication_year", "page_count", "maturity_rating",
   "google_books_id", "google_preview_link", "google_info_link",
   "google_canonical_link", "avg_rating", "ratings_count", "format",
   "ebook_url"]

/-- The property keys the price `CREATE` statement sets (lines 104–117);
note `book_id` is in the record but not among the created node's
properties. -/
def priceKeys : List String :=
  ["id", "country", "on_sale_date", "saleability", "list_price",
   "retail_price", "list_price_currency_code", "retail_price_currency_code",
   "buy_link"]

/-- The property keys of the four name-entity `CREATE` statements. -/
def nameKeys : List String := ["id", "name"]

/-- The node a `CREATE (n:label { k1: rec.k1, ... })` statement builds from
one record: the listed keys, each read from the record map. -/
def mkNode (label : String) (keys : List String) (r : Rec) : Node :=
  { label := label, props := keys.map fun k => (k, getProp r k) }

/-- Semantics of `UNWIND $records AS rec CREATE (n:Label { k1: rec.k1, ... })`:
appends one node per record. -/
def unwindCreate (label : String) (keys : List String) (records : List Rec)
    (g : Graph) : Graph :=
  { g with nodes := g.nodes ++ records.map (mkNode label keys) }

/-- The positions in a node list matching `(n:label)` with `n.id = idv`. -/
def nodeMatchesL (ns : List Node) (label : String) (idv : Val) : List Nat :=
  (ns.enum.filter fun p =>
    p.2.label == label && getProp p.2.props "id" == idv).map Prod.fst

/-- The node positions of a graph matching `(n:label)` with `n.id = idv`. -/
def nodeMatches (g : Graph) (label : String) (idv : Val) : List Nat :=
  nodeMatchesL g.nodes label idv

/-- Semantics of `UNWIND $records AS rec MATCH (b:Book), (e:nodeType) WHERE b.id =
rec.book_id AND e.id = rec.<entityKey> CREATE (b)-[:relType]->(e)`:
for each record, one edge per pair of matching node positions (cartesian
match). A record with no match on either side contributes no edge. -/
def edgeBatch (ns : List Node) (records : List Rec)
    (relType nodeType entityKey : String) : List Edge :=
  records.flatMap fun r =>
    (nodeMatchesL ns "Book" (getProp r "book_id")).flatMap fun i =>
      (nodeMatchesL ns nodeType (getProp r entityKey)).map fun j =>
        { relType := relType, src := i, dst := j }

def createEdgesBy (records : List Rec) (relType nodeType entityKey : String)
    (g : Graph) : Graph :=
  { g with edges := g.edges ++ edgeBatch g.nodes records relType nodeType entityKey }

/-- Source function `create_publisher_nodes` (lines 41–48). -/
def create_publisher_nodes (publishers : List Rec) (g : Graph) : Graph :=
  unwindCreate "Publisher" nameKeys publishers g

/-- Source function `create_author_nodes` (lines 50–57). -/
def create_author_nodes (authors : List Rec) (g : Graph) : Graph :=
  unwindCreate "Author" nameKeys authors g

/-- Source function `create_category_nodes` (lines 59–66). -/
def create_category_nodes (categories : List Rec) (g : Graph) : Graph :=
  unwindCreate "Category" nameKeys categories g

/-- Source function `create_subject_nodes` (lines 68–75). -/
def create_subject_nodes (subjects : List Rec) (g : Graph) : Graph :=
  unwindCreate "Subject" nameKeys subjects g

/-- Source function `create_book_nodes` (lines 77–100). -/
def create_book_nodes (books : List Rec) (g : Graph) : Graph :=
  unwindCreate "Book" bookKeys books g

/-- Source function `create_price_nodes` (lines 102–125): one transaction function issuing
two statements — bulk `CREATE` of the Price nodes, then bulk `MATCH ...
CREATE` of the `PRICED_AT` edges, matching `b.id = price.book_id` and
`p.id = price.id`. -/
def create_price_nodes (prices : List Rec) (g : Graph) : Graph :=
  createEdgesBy prices "PRICED_AT" "Price" "id"
    (unwindCreate "Price" priceKeys prices g)

/-- Source function `create_relationships` (lines 127–133). -/
def create_relationships (relationships : List Rec)
    (rel_type node_type : String) (g : Graph) : Graph :=
  createEdgesBy relationships rel_type node_type "entity_id" g

/-- One write operation of the run, in the order `main()` issues them. -/
inductive Op where
  | reset
  | createIndex (label : String)
  | createNodesOp (label : String) (keys : List String) (records : List Rec)
  | createEdgesOp (relType nodeType entityKey : String) (records : List Rec)
deriving DecidableEq

/-- Effect of one operation on the graph: `reset` is `MATCH (n) DETACH
DELETE n` (empties the graph); index creation does not change the data. -/
def applyOp : Op → Graph → Graph
  | .reset, _ => { nodes := [], edges := [] }
  | .createIndex _, g => g
  | .createNodesOp label keys records, g => unwindCreate label keys records g
  | .createEdgesOp relType nodeType entityKey records, g =>
      createEdgesBy records relType nodeType entityKey g

/-- Run a sequence of operations in order. -/
def runOps (ops : List Op) (g : Graph) : Graph :=
  ops.foldl (fun g op => applyOp op g) g

/-- The complete, strictly sequential operation list of `main()`
(lines 135–244): reset, the six index creations of `create_indexes`, then
one bulk node creation per entity type (the Price stage contributing its
node statement and its `PRICED_AT` edge statement), then the four
relationship stages. -/
def migrationOps (db : RelDB) : List Op :=
  [Op.reset,
   Op.createIndex "Book", Op.createIndex "Price", Op.createIndex "Author",
   Op.createIndex "Publisher", Op.createIndex "Category", Op.createIndex "Subject",
   Op.createNodesOp "Publisher" nameKeys (db.publishers.map projectName),
   Op.createNodesOp "Author" nameKeys (db.authors.map projectName),
   Op.createNodesOp "Category" nameKeys (db.categories.map projectName),
   Op.createNodesOp "Subject" nameKeys (db.subjects.map projectName),
   Op.createNodesOp "Book" bookKeys ((fetchBooks db).map projectBook),
   Op.createNodesOp "Price" priceKeys (db.prices.map projectPrice),
   Op.createEdgesOp "PRICED_AT" "Price" "id" (db.prices.map projectPrice),
   Op.createEdgesOp "AUTHORED_BY" "Author" "entity_id" (db.bookAuthors.map projectJoin),
   Op.createEdgesOp "PUBLISHED_BY" "Publisher" "entity_id" (db.bookPublishers.map projectJoin),
   Op.createEdgesOp "CATEGORIZED_AS" "Category" "entity_id" (db.bookCategories.map projectJoin),
   Op.createEdgesOp "HAS_SUBJECT" "Subject" "entity_id" (db.bookSubjects.map projectJoin)]

/-- A full migration run of `main()` starting from destination graph `g`. -/
def migrate (db : RelDB) (g : Graph) : Graph :=
  runOps (migrationOps db) g

/-- Sanity: the operation list replays exactly the hand-sequenced calls of
`main()`. -/
theorem migrate_eq_calls (db : RelDB) (g : Graph) :
    migrate db g =
      create_relationships (db.bookSubjects.map projectJoin) "HAS_SUBJECT" "Subject"
        (create_relationships (db.bookCategories.map projectJoin) "CATEGORIZED_AS" "Category"
          (create_relationships (db.bookPublishers.map projectJoin) "PUBLISHED_BY" "Publisher"
            (create_relationships (db.bookAuthors.map projectJoin) "AUTHORED_BY" "Author"
              (create_price_nodes (db.prices.map projectPrice)
                (create_book_nodes ((fetchBooks db).map projectBook)
                  (create_subject_nodes (db.subjects.map projectName)
                    (create_category_nodes (db.categories.map projectName)
                      (create_author_nodes (db.authors.map projectName)
                        (create_publisher_nodes (db.publishers.map projectName)
                          { nodes := [], edges := [] }))))))))) := rfl

/-- Number of nodes carrying a given label. -/
def countLabel (g : Graph) (label : String) : Nat :=
  (g.nodes.filter fun n => n.label == label).length

/-- Number of edges of a given relationship type. -/
def countEdges (g : Graph) (relType : String) : Nat :=
  (g.edges.filter fun e => e.relType == relType).length

/-- Whether a node list holds a node with the given label and id. -/
def hasNodeL (ns : List Node) (label : String) (idv : Val) : Bool :=
  !(nodeMatchesL ns label idv).isEmpty

/-- Whether a node with the given label and id exists in the graph. -/
def hasNode (g : Graph) (label : String) (idv : Val) : Bool :=
  hasNodeL g.nodes label idv

theorem countLabel_unwindCreate (L keys recs g L') :
    countLabel (unwindCreate L keys recs g) L' =
      countLabel g L' + (if L == L' then recs.length else 0) := by
  simp only [countLabel, unwindCreate, List.filter_append, List.length_append,
    List.filter_map, List.length_map]
  cases h : (L == L') <;>
    simp_all [Function.comp, mkNode, List.filter_eq_self, List.filter_eq_nil_iff]

theorem countLabel_createEdgesBy (records R T K g L') :
    countLabel (createEdgesBy records R T K g) L' = countLabel g L' := rfl

/-- An empty relational source (used to instantiate universally quantified
theorems at a concrete input). -/
def emptyDB : RelDB :=
  { publishers := [], authors := [], categories := [], subjects := []
    books := [], ratings := [], physicalBooks := [], ebooks := []
    prices := [], bookAuthors := [], bookPublishers := []
    bookCategories := [], bookSubjects := [] }

/-- The empty destination graph. -/
def graph0 : Graph := { nodes := [], edges := [] }

theorem countLabel_graph0 (L : String) : countLabel graph0 L = 0 := rfl

/-- Claim C1: after a migration run, for each of the six entity types the
number of nodes carrying that label equals the number of rows the run
fetched from that type's backing relational table (for `Book`, the rows of
its left-joined extraction query); each fetched row yields exactly one
created node, with no deduplication, filtering or existence check. -/
theorem node_counts_match_rows (db : RelDB) (g : Graph) :
    countLabel (migrate db g) "Publisher" = db.publishers.length ∧
    countLabel (migrate db g) "Author" = db.authors.length ∧
    countLabel (migrate db g) "Category" = db.categories.length ∧
    countLabel (migrate db g) "Subject" = db.subjects.length ∧
    countLabel (migrate db g) "Book" = (fetchBooks db).length ∧
    countLabel (migrate db g) "Price" = db.prices.length := by
  simp only [migrate, migrationOps, runOps, List.foldl, applyOp]
  refine ⟨?_, ?_, ?_, ?_, ?_, ?_⟩ <;>
    simp +decide [countLabel_createEdgesBy, countLabel_unwindCreate,
      show ({ nodes := [], edges := [] } : Graph) = graph0 from rfl,
      countLabel_graph0]

/-- Claim C6: running the full migration twice against an unchanged relational
source yields the identical destination graph, because the run's first
operation deletes every node and edge; indeed the result is independent of
the destination's prior state. -/
theorem migrate_idempotent (db : RelDB) (g g' : Graph) :
    migrate db (migrate db g) = migrate db g ∧ migrate db g = migrate db g' :=
  ⟨rfl, rfl⟩

/-- Whether an operation is a bulk node creation. -/
def Op.isNodeOp : Op → Bool
  | .createNodesOp .. => true
  | _ => false

/-- Whether an operation is a bulk relationship (edge) creation. -/
def Op.isEdgeOp : Op → Bool
  | .createEdgesOp .. => true
  | _ => false

theorem migrationOps_edge_pos (db : RelDB) (i : Nat)
    (hi : i < (migrationOps db).length)
    (he : ((migrationOps db)[i]).isEdgeOp = true) : 13 ≤ i := by
  have hlen : (migrationOps db).length = 18 := rfl
  rw [hlen] at hi
  interval_cases i <;> simp_all [migrationOps, Op.isEdgeOp]

theorem migrationOps_node_pos (db : RelDB) (j : Nat)
    (hj : j < (migrationOps db).length)
    (hn : ((migrationOps db)[j]).isNodeOp = true) : 7 ≤ j ∧ j ≤ 12 := by
  have hlen : (migrationOps db).length = 18 := rfl
  rw [hlen] at hj
  interval_cases j <;> simp_all [migrationOps, Op.isNodeOp]

/-- Claim C5: in the operation sequence of a migration run, every bulk
node-creation operation (all six entity types, Price included) occurs
strictly before every bulk relationship-creation operation. -/
theorem nodes_before_edges (db : RelDB) (i j : Nat)
    (hi : i < (migrationOps db).length) (hj : j < (migrationOps db).length)
    (he : ((migrationOps db)[i]).isEdgeOp = true)
    (hn : ((migrationOps db)[j]).isNodeOp = true) : j < i := by
  have h1 := migrationOps_edge_pos db i hi he
  have h2 := migrationOps_node_pos db j hj hn
  omega

/-- Witness for C5 at a concrete input: the `PRICED_AT` edge operation at
position 13 comes after the Publisher node operation at position 7. -/
theorem nodes_before_edges_witness : 7 < 13 :=
  nodes_before_edges emptyDB 13 7 (by decide) (by decide) (by decide) (by decide)

/-- All nodes a run loads, in creation order: one batch per entity type. -/
def loadedNodes (db : RelDB) : List Node :=
  (db.publishers.map projectName).map (mkNode "Publisher" nameKeys) ++
  (db.authors.map projectName).map (mkNode "Author" nameKeys) ++
  (db.categories.map projectName).map (mkNode "Category" nameKeys) ++
  (db.subjects.map projectName).map (mkNode "Subject" nameKeys) ++
  ((fetchBooks db).map projectBook).map (mkNode "Book" bookKeys) ++
  (db.prices.map projectPrice).map (mkNode "Price" priceKeys)

theorem migrate_nodes (db : RelDB) (g : Graph) :
    (migrate db g).nodes = loadedNodes db := by
  simp [migrate, migrationOps, runOps, applyOp, unwindCreate, createEdgesBy,
    loadedNodes, List.append_assoc]

theorem nodeMatchesL_length (ns : List Node) (L : String) (v : Val) :
    (nodeMatchesL ns L v).length =
      ns.countP fun n => n.label == L && getProp n.props "id" == v := by
  simp only [nodeMatchesL, List.length_map, ← List.countP_eq_length_filter]
  conv_rhs => rw [← List.enum_map_snd ns]
  rw [List.countP_map]
  rfl

theorem length_of_le_one {α : Type} (l : List α) (h : l.length ≤ 1) :
    l.length = if !l.isEmpty then 1 else 0 := by
  cases l with
  | nil => rfl
  | cons a t => cases t with
    | nil => rfl
    | cons b u => simp at h

theorem countP_int_key_unique {α : Type} (f : α → Int) (l : List α)
    (hl : (l.map f).Nodup) (v : Val) :
    l.countP (fun a => Val.int (f a) == v) =
      if l.any (fun a => Val.int (f a) == v) then 1 else 0 := by
  induction l with
  | nil => rfl
  | cons a t ih =>
    simp only [List.map_cons, List.nodup_cons] at hl
    rcases hl with ⟨hna, hnd⟩
    rw [List.countP_cons]
    by_cases h : (Val.int (f a) == v) = true
    · have ht : t.countP (fun b => Val.int (f b) == v) = 0 := by
        rw [List.countP_eq_zero]
        intro b hb hbv
        apply hna
        have h1 : Val.int (f b) = v := by simpa using hbv
        have h2 : Val.int (f a) = v := by simpa using h
        have hfb : f b = f a := by
          have := h1.trans h2.symm
          injection this
        exact hfb ▸ List.mem_map_of_mem f hb
      simp [List.any_cons, h, ht]
    · simp only [Bool.not_eq_true] at h
      simp [List.any_cons, h, ih hnd]

theorem countP_loaded_publisher (db : RelDB) (v : Val) :
    (loadedNodes db).countP
        (fun n => n.label == "Publisher" && getProp n.props "id" == v) =
      db.publishers.countP fun a => Val.int a.id == v := by
  simp [loadedNodes, List.countP_append, List.countP_map, Function.comp_def,
    mkNode, nameKeys, bookKeys, priceKeys, getProp, projectName]

theorem countP_loaded_author (db : RelDB) (v : Val) :
    (loadedNodes db).countP
        (fun n => n.label == "Author" && getProp n.props "id" == v) =
      db.authors.countP fun a => Val.int a.id == v := by
  simp [loadedNodes, List.countP_append, List.countP_map, Function.comp_def,
    mkNode, nameKeys, bookKeys, priceKeys, getProp, projectName]

theorem countP_loaded_category (db : RelDB) (v : Val) :
    (loadedNodes db).countP
        (fun n => n.label == "Category" && getProp n.props "id" == v) =
      db.categories.countP fun a => Val.int a.id == v := by
  simp [loadedNodes, List.countP_append, List.countP_map, Function.comp_def,
    mkNode, nameKeys, bookKeys, priceKeys, getProp, projectName]

theorem countP_loaded_subject (db : RelDB) (v : Val) :
    (loadedNodes db).countP
        (fun n => n.label == "Subject" && getProp n.props "id" == v) =
      db.subjects.countP fun a => Val.int a.id == v := by
  simp [loadedNodes, List.countP_append, List.countP_map, Function.comp_def,
    mkNode, nameKeys, bookKeys, priceKeys, getProp, projectName]

theorem countP_loaded_book (db : RelDB) (v : Val) :
    (loadedNodes db).countP
        (fun n => n.label == "Book" && getProp n.props "id" == v) =
      (fetchBooks db).countP fun j => Val.int j.book.book_id == v := by
  simp [loadedNodes, List.countP_append, List.countP_map, Function.comp_def,
    mkNode, nameKeys, bookKeys, priceKeys, getProp, projectBook]

theorem countP_loaded_price (db : RelDB) (v : Val) :
    (loadedNodes db).countP
        (fun n => n.label == "Price" && getProp n.props "id" == v) =
      db.prices.countP fun p => Val.int p.price_id == v := by
  simp [loadedNodes, List.countP_append, List.countP_map, Function.comp_def,
    mkNode, nameKeys, bookKeys, priceKeys, getProp, projectPrice]

theorem migrate_edges (db : RelDB) (g : Graph) :
    (migrate db g).edges =
      edgeBatch (loadedNodes db) (db.prices.map projectPrice) "PRICED_AT" "Price" "id" ++
      edgeBatch (loadedNodes db) (db.bookAuthors.map projectJoin) "AUTHORED_BY" "Author" "entity_id" ++
      edgeBatch (loadedNodes db) (db.bookPublishers.map projectJoin) "PUBLISHED_BY" "Publisher" "entity_id" ++
      edgeBatch (loadedNodes db) (db.bookCategories.map projectJoin) "CATEGORIZED_AS" "Category" "entity_id" ++
      edgeBatch (loadedNodes db) (db.bookSubjects.map projectJoin) "HAS_SUBJECT" "Subject" "entity_id" := by
  simp [migrate, migrationOps, runOps, applyOp, unwindCreate, createEdgesBy,
    loadedNodes, List.append_assoc]

theorem mem_edgeBatch_relType {e : Edge} {ns records R T K}
    (he : e ∈ edgeBatch ns records R T K) : e.relType = R := by
  simp only [edgeBatch, List.mem_flatMap, List.mem_map] at he
  obtain ⟨r, -, i, -, j, -, rfl⟩ := he
  rfl

theorem filter_edgeBatch (ns records R T K R') :
    (edgeBatch ns records R T K).filter (fun e => e.relType == R') =
      if R == R' then edgeBatch ns records R T K else [] := by
  by_cases h : R = R'
  · subst h
    rw [if_pos (by simp), List.filter_eq_self]
    intro e he
    rw [mem_edgeBatch_relType he]
    simp
  · rw [if_neg (by simpa using h), List.filter_eq_nil_iff]
    intro e he
    rw [mem_edgeBatch_relType he]
    simpa using h

theorem length_flatMap_map {α β γ : Type} (l1 : List α) (l2 : List β)
    (f : α → β → γ) :
    (l1.flatMap fun i => l2.map (f i)).length = l1.length * l2.length := by
  induction l1 with
  | nil => simp
  | cons a t ih => simp [ih, Nat.succ_mul, Nat.add_comm]

theorem flatMap_length_eq_filter {α β : Type} (recs : List α) (F : α → List β)
    (p : α → Bool) (h : ∀ r ∈ recs, (F r).length = if p r then 1 else 0) :
    (recs.flatMap F).length = (recs.filter p).length := by
  induction recs with
  | nil => rfl
  | cons a t ih =>
    simp only [List.flatMap_cons, List.length_append, List.filter_cons]
    rw [h a (List.mem_cons_self a t), ih fun r hr => h r (List.mem_cons_of_mem a hr)]
    cases hp : p a <;> simp [hp, Nat.add_comm]

theorem getProp_projectJoin_book (r : JoinRow) :
    getProp (projectJoin r) "book_id" = .int r.book_id := rfl

theorem getProp_projectJoin_entity (r : JoinRow) :
    getProp (projectJoin r) "entity_id" = .int r.entity_id := rfl

theorem getProp_projectPrice_book (p : PriceRow) :
    getProp (projectPrice p) "book_id" = .int p.book_id := rfl

theorem getProp_projectPrice_id (p : PriceRow) :
    getProp (projectPrice p) "id" = .int p.price_id := rfl

theorem if_bool_mul (b1 b2 : Bool) :
    ((if b1 = true then 1 else 0) * if b2 = true then 1 else 0 : Nat) =
      if (b1 && b2) = true then 1 else 0 := by
  cases b1 <;> cases b2 <;> simp

theorem edgeBatch_length (ns : List Node) (records : List Rec) (R T K : String)
    (hbook : ∀ v, (nodeMatchesL ns "Book" v).length ≤ 1)
    (hT : ∀ v, (nodeMatchesL ns T v).length ≤ 1) :
    (edgeBatch ns records R T K).length =
      (records.filter fun r =>
        hasNodeL ns "Book" (getProp r "book_id") &&
          hasNodeL ns T (getProp r K)).length := by
  apply flatMap_length_eq_filter
  intro r hr
  rw [length_flatMap_map, length_of_le_one _ (hbook _), length_of_le_one _ (hT _)]
  simp only [hasNodeL]
  exact if_bool_mul _ _

theorem countP_le_one_of_nodup {α : Type} (f : α → Int) (l : List α)
    (hl : (l.map f).Nodup) (v : Val) :
    l.countP (fun a => Val.int (f a) == v) ≤ 1 := by
  rw [countP_int_key_unique f l hl v]
  split <;> simp

theorem edge_count_one_type (db : RelDB) (joins : List JoinRow) (R T : String)
    (hbl : ∀ v, (nodeMatchesL (loadedNodes db) "Book" v).length ≤ 1)
    (hTl : ∀ v, (nodeMatchesL (loadedNodes db) T v).length ≤ 1) :
    (edgeBatch (loadedNodes db) (joins.map projectJoin) R T "entity_id").length =
      (joins.filter fun r =>
        hasNodeL (loadedNodes db) "Book" (.int r.book_id) &&
          hasNodeL (loadedNodes db) T (.int r.entity_id)).length := by
  rw [edgeBatch_length _ _ _ _ _ hbl hTl, List.filter_map, List.length_map]
  simp [Function.comp_def, getProp_projectJoin_book, getProp_projectJoin_entity]

theorem edge_count_price_type (db : RelDB)
    (hbl : ∀ v, (nodeMatchesL (loadedNodes db) "Book" v).length ≤ 1)
    (hTl : ∀ v, (nodeMatchesL (loadedNodes db) "Price" v).length ≤ 1) :
    (edgeBatch (loadedNodes db) (db.prices.map projectPrice) "PRICED_AT" "Price" "id").length =
      (db.prices.filter fun p =>
        hasNodeL (loadedNodes db) "Book" (.int p.book_id) &&
          hasNodeL (loadedNodes db) "Price" (.int p.price_id)).length := by
  rw [edgeBatch_length _ _ _ _ _ hbl hTl, List.filter_map, List.length_map]
  simp [Function.comp_def, getProp_projectPrice_book, getProp_projectPrice_id]

/-- Claim C2: after a migration run, for every relationship type the number of
edges of that type equals the number of source join-table rows (`Price` rows
for `PRICED_AT`) whose `book_id` and other-entity id both match an existing
node of the expected label; each such row yields exactly one directed edge.
The hypotheses say the identity keys of each fetched row set are unique
(they are relational primary keys). -/
theorem edge_counts_match_join_rows (db : RelDB) (g : Graph)
    (hB : ((fetchBooks db).map fun j => j.book.book_id).Nodup)
    (hA : (db.authors.map NameRow.id).Nodup)
    (hP : (db.publishers.map NameRow.id).Nodup)
    (hC : (db.categories.map NameRow.id).Nodup)
    (hS : (db.subjects.map NameRow.id).Nodup)
    (hPr : (db.prices.map PriceRow.price_id).Nodup) :
    countEdges (migrate db g) "AUTHORED_BY" =
      (db.bookAuthors.filter fun r =>
        hasNode (migrate db g) "Book" (.int r.book_id) &&
          hasNode (migrate db g) "Author" (.int r.entity_id)).length ∧
    countEdges (migrate db g) "PUBLISHED_BY" =
      (db.bookPublishers.filter fun r =>
        hasNode (migrate db g) "Book" (.int r.book_id) &&
          hasNode (migrate db g) "Publisher" (.int r.entity_id)).length ∧
    countEdges (migrate db g) "CATEGORIZED_AS" =
      (db.bookCategories.filter fun r =>
        hasNode (migrate db g) "Book" (.int r.book_id) &&
          hasNode (migrate db g) "Category" (.int r.entity_id)).length ∧
    countEdges (migrate db g) "HAS_SUBJECT" =
      (db.bookSubjects.filter fun r =>
        hasNode (migrate db g) "Book" (.int r.book_id) &&
          hasNode (migrate db g) "Subject" (.int r.entity_id)).length ∧
    countEdges (migrate db g) "PRICED_AT" =
      (db.prices.filter fun p =>
        hasNode (migrate db g) "Book" (.int p.book_id) &&
          hasNode (migrate db g) "Price" (.int p.price_id)).length := by
  have hnode : ∀ L v, hasNode (migrate db g) L v = hasNodeL (loadedNodes db) L v :=
    fun L v => by rw [hasNode, migrate_nodes]
  have hbl : ∀ v, (nodeMatchesL (loadedNodes db) "Book" v).length ≤ 1 := fun v => by
    rw [nodeMatchesL_length, countP_loaded_book]
    exact countP_le_one_of_nodup (fun j : JoinedBookRow => j.book.book_id) _ hB v
  have hal : ∀ v, (nodeMatchesL (loadedNodes db) "Author" v).length ≤ 1 := fun v => by
    rw [nodeMatchesL_length, countP_loaded_author]
    exact countP_le_one_of_nodup NameRow.id _ hA v
  have hpl : ∀ v, (nodeMatchesL (loadedNodes db) "Publisher" v).length ≤ 1 := fun v => by
    rw [nodeMatchesL_length, countP_loaded_publisher]
    exact countP_le_one_of_nodup NameRow.id _ hP v
  have hcl : ∀ v, (nodeMatchesL (loadedNodes db) "Category" v).length ≤ 1 := fun v => by
    rw [nodeMatchesL_length, countP_loaded_category]
    exact countP_le_one_of_nodup NameRow.id _ hC v
  have hsl : ∀ v, (nodeMatchesL (loadedNodes db) "Subject" v).length ≤ 1 := fun v => by
    rw [nodeMatchesL_length, countP_loaded_subject]
    exact countP_le_one_of_nodup NameRow.id _ hS v
  have hprl : ∀ v, (nodeMatchesL (loadedNodes db) "Price" v).length ≤ 1 := fun v => by
    rw [nodeMatchesL_length, countP_loaded_price]
    exact countP_le_one_of_nodup PriceRow.price_id _ hPr v
  simp only [hnode]
  refine ⟨?_, ?_, ?_, ?_, ?_⟩ <;>
    · rw [countEdges, migrate_edges]
      simp only [List.filter_append, filter_edgeBatch, List.length_append]
      simp [edge_count_one_type db _ _ _ hbl hal,
        edge_count_one_type db _ _ _ hbl hpl,
        edge_count_one_type db _ _ _ hbl hcl,
        edge_count_one_type db _ _ _ hbl hsl,
        edge_count_price_type db hbl hprl]

/-- A small concrete relational source: one row per entity table, the
satellite rating present, and one dangling `BookAuthor` row (author 99
does not exist). -/
def sampleDB : RelDB :=
  { publishers := [{ id := 1, name := .pstr "Penguin" }]
    authors := [{ id := 1, name := .pstr "A" }]
    categories := [{ id := 1, name := .pstr "C" }]
    subjects := [{ id := 1, name := .pstr "S" }]
    books := [{ book_id := 1, isbn10 := .pnull, isbn13 := .pstr "9780000000035",
                title := .pstr "T", subtitle := .pnull, description := .pnull,
                language_code := .pnull, publication_year := .pint 2020,
                page_count := .pnull, maturity_rating := .pnull,
                google_books_id := .pnull, google_preview_link := .pnull,
                google_info_link := .pnull, google_canonical_link := .pnull }]
    ratings := [{ book_id := 1, avg_rating := .pnum 5, ratings_count := .pint 10 }]
    physicalBooks := []
    ebooks := []
    prices := [{ price_id := 1, book_id := 1, country := .pstr "US",
                 on_sale_date := .pnull, saleability := .pnull,
                 list_price := .pnum 3, retail_price := .pnull,
                 list_price_currency_code := .pnull,
                 retail_price_currency_code := .pnull, buy_link := .pnull }]
    bookAuthors := [{ book_id := 1, entity_id := 1 }, { book_id := 1, entity_id := 99 }]
    bookPublishers := [{ book_id := 1, entity_id := 1 }]
    bookCategories := [{ book_id := 1, entity_id := 1 }]
    bookSubjects := [{ book_id := 1, entity_id := 1 }] }

/-- Witness for C2 at the concrete source `sampleDB`. -/
theorem edge_counts_match_join_rows_witness :
    countEdges (migrate sampleDB graph0) "AUTHORED_BY" =
      (sampleDB.bookAuthors.filter fun r =>
        hasNode (migrate sampleDB graph0) "Book" (.int r.book_id) &&
          hasNode (migrate sampleDB graph0) "Author" (.int r.entity_id)).length :=
  (edge_counts_match_join_rows sampleDB graph0 (by decide) (by decide)
    (by decide) (by decide) (by decide) (by decide)).1

theorem flatMap_const_nil {α β : Type} (l : List α) :
    (l.flatMap fun _ => ([] : List β)) = [] := by
  induction l <;> simp_all

theorem hasNodeL_false_nil (ns : List Node) (L : String) (v : Val)
    (h : hasNodeL ns L v = false) : nodeMatchesL ns L v = [] := by
  cases hx : nodeMatchesL ns L v with
  | nil => rfl
  | cons a t => rw [hasNodeL, hx] at h; simp at h

/-- Claim C7: a relationship record either of whose ids (the `book_id` or
the other-entity id) matches no node of the expected label contributes no
edge: the bulk statement's result is the same as if the pair were absent,
the remaining pairs are unaffected, and the operation (hence the run)
completes normally. -/
theorem dangling_pair_skipped (g : Graph) (rels1 rels2 : List Rec) (r : Rec)
    (R T : String)
    (h : hasNode g "Book" (getProp r "book_id") = false ∨
      hasNode g T (getProp r "entity_id") = false) :
    create_relationships (rels1 ++ r :: rels2) R T g =
      create_relationships (rels1 ++ rels2) R T g := by
  rcases h with h | h
  · have h' := hasNodeL_false_nil g.nodes "Book" (getProp r "book_id") h
    simp [create_relationships, createEdgesBy, edgeBatch, List.flatMap_append,
      List.flatMap_cons, h', flatMap_const_nil]
  · have h' := hasNodeL_false_nil g.nodes T (getProp r "entity_id") h
    simp [create_relationships, createEdgesBy, edgeBatch, List.flatMap_append,
      List.flatMap_cons, h', flatMap_const_nil]

/-- A concrete graph for the C7 witness: a single Book node, no Author. -/
def c7Graph : Graph :=
  { nodes := [{ label := "Book", props := [("id", .int 1)] }], edges := [] }

/-- Witness for C7: both dangling directions at concrete pairs — the
`BookAuthor` pair (1, 99) (author 99 missing) and the pair (42, 1)
(book 42 missing) are each silently skipped. -/
theorem dangling_pair_skipped_witness :
    (create_relationships
        ([] ++ projectJoin { book_id := 1, entity_id := 99 } ::
          [projectJoin { book_id := 1, entity_id := 1 }])
        "AUTHORED_BY" "Author" c7Graph =
      create_relationships ([] ++ [projectJoin { book_id := 1, entity_id := 1 }])
        "AUTHORED_BY" "Author" c7Graph) ∧
    (create_relationships
        ([] ++ projectJoin { book_id := 42, entity_id := 1 } ::
          [projectJoin { book_id := 1, entity_id := 1 }])
        "AUTHORED_BY" "Author" c7Graph =
      create_relationships ([] ++ [projectJoin { book_id := 1, entity_id := 1 }])
        "AUTHORED_BY" "Author" c7Graph) :=
  ⟨dangling_pair_skipped c7Graph [] [projectJoin { book_id := 1, entity_id := 1 }]
      (projectJoin { book_id := 1, entity_id := 99 }) "AUTHORED_BY" "Author"
      (Or.inr (by decide)),
   dangling_pair_skipped c7Graph [] [projectJoin { book_id := 1, entity_id := 1 }]
      (projectJoin { book_id := 42, entity_id := 1 }) "AUTHORED_BY" "Author"
      (Or.inl (by decide))⟩

/-- Claim C8: assuming `book_id` is unique across the fetched book rows, every
Book node's `id` property is the `book_id` of the row it was projected from
(in order), and no two Book nodes share an `id`. -/
theorem book_node_identity (db : RelDB) (g : Graph)
    (h : ((fetchBooks db).map fun j => j.book.book_id).Nodup) :
    (((migrate db g).nodes.filter fun n => n.label == "Book").map
        fun n => getProp n.props "id") =
      (fetchBooks db).map (fun j => Val.int j.book.book_id) ∧
    (((migrate db g).nodes.filter fun n => n.label == "Book").map
        fun n => getProp n.props "id").Nodup := by
  have hfil : (migrate db g).nodes.filter (fun n => n.label == "Book") =
      ((fetchBooks db).map projectBook).map (mkNode "Book" bookKeys) := by
    rw [migrate_nodes]
    simp [loadedNodes, List.filter_append, List.filter_map, Function.comp_def,
      mkNode]
  have h1 : (((migrate db g).nodes.filter fun n => n.label == "Book").map
      fun n => getProp n.props "id") =
      (fetchBooks db).map (fun j => Val.int j.book.book_id) := by
    rw [hfil]
    simp [List.map_map, Function.comp_def, mkNode, bookKeys, getProp, projectBook]
  refine ⟨h1, ?_⟩
  rw [h1]
  have hsplit : (List.map (fun j => Val.int j.book.book_id) (fetchBooks db)) =
      List.map Val.int (List.map (fun j => j.book.book_id) (fetchBooks db)) := by
    rw [List.map_map]
    rfl
  rw [hsplit]
  exact (List.Nodup.map (fun a b hab => by simpa using hab)) h

/-- Witness for C8 at the concrete source `sampleDB`. -/
theorem book_node_identity_witness :
    (((migrate sampleDB graph0).nodes.filter fun n => n.label == "Book").map
        fun n => getProp n.props "id") =
      (fetchBooks sampleDB).map (fun j => Val.int j.book.book_id) ∧
    (((migrate sampleDB graph0).nodes.filter fun n => n.label == "Book").map
        fun n => getProp n.props "id").Nodup :=
  book_node_identity sampleDB graph0 (by decide)

/-- A `Price` row whose `on_sale_date` is SQL NULL (absent) and whose
`list_price` is present with value 0. -/
def c3Row : PriceRow :=
  { price_id := 1, book_id := 1, country := .pstr "US", on_sale_date := .pnull,
    saleability := .pnull, list_price := .pnum 0, retail_price := .pnull,
    list_price_currency_code := .pnull, retail_price_currency_code := .pnull,
    buy_link := .pnull }

/-- Counterexample to claim C3: an absent `on_sale_date` is projected as the
string `"None"`, not as null (it is `str(row[3])` unconditionally), and a
present `list_price` of 0 is projected as null, not as a float (the guard
is Python truthiness, which 0 fails). -/
theorem price_projection_counterexample :
    c3Row.on_sale_date = .pnull ∧
    getProp (projectPrice c3Row) "on_sale_date" = .str "None" ∧
    getProp (projectPrice c3Row) "on_sale_date" ≠ Val.null ∧
    c3Row.list_price = .pnum 0 ∧ c3Row.list_price ≠ .pnull ∧
    getProp (projectPrice c3Row) "list_price" = Val.null := by decide

/-- Amended claim C3: `list_price`/`retail_price` are coerced to float when
present and nonzero, and to null when absent or zero; `on_sale_date` is
always coerced to its Python string form, so an absent date yields the
string `"None"`, never null. -/
theorem price_projection_amended (row : PriceRow) :
    (row.on_sale_date = .pnull →
      getProp (projectPrice row) "on_sale_date" = .str "None") ∧
    (∀ d, row.on_sale_date = .pdate d →
      getProp (projectPrice row) "on_sale_date" = .str d) ∧
    (row.list_price = .pnull → getProp (projectPrice row) "list_price" = .null) ∧
    (row.list_price = .pnum 0 → getProp (projectPrice row) "list_price" = .null) ∧
    (∀ q : ℚ, q ≠ 0 → row.list_price = .pnum q →
      getProp (projectPrice row) "list_price" = .float q) ∧
    (row.retail_price = .pnull → getProp (projectPrice row) "retail_price" = .null) ∧
    (row.retail_price = .pnum 0 → getProp (projectPrice row) "retail_price" = .null) ∧
    (∀ q : ℚ, q ≠ 0 → row.retail_price = .pnum q →
      getProp (projectPrice row) "retail_price" = .float q) := by
  refine ⟨fun h => ?_, fun d h => ?_, fun h => ?_, fun h => ?_,
    fun q hq h => ?_, fun h => ?_, fun h => ?_, fun q hq h => ?_⟩ <;>
    simp_all [projectPrice, getProp, pyStr, pyTruthy, pyFloat]

/-- A fully populated `Price` row for the C3 witness. -/
def c3wRow : PriceRow :=
  { price_id := 2, book_id := 1, country := .pstr "CA",
    on_sale_date := .pdate "2020-01-01", saleability := .pnull,
    list_price := .pnum 5, retail_price := .pnull,
    list_price_currency_code := .pnull, retail_price_currency_code := .pnull,
    buy_link := .pnull }

/-- Witness for the amended C3 at a concrete row. -/
theorem price_projection_amended_witness :
    getProp (projectPrice c3wRow) "on_sale_date" = .str "2020-01-01" ∧
    getProp (projectPrice c3wRow) "list_price" = .float 5 ∧
    getProp (projectPrice c3wRow) "retail_price" = Val.null :=
  ⟨(price_projection_amended c3wRow).2.1 "2020-01-01" rfl,
   (price_projection_amended c3wRow).2.2.2.2.1 5 (by norm_num) rfl,
   (price_projection_amended c3wRow).2.2.2.2.2.1 rfl⟩

theorem getProp_projectBook_avg (j : JoinedBookRow) :
    getProp (projectBook j) "avg_rating" =
      if pyTruthy j.avg_rating then .float (pyFloat j.avg_rating) else .null := by
  simp [projectBook, getProp]

theorem getProp_projectBook_rcount (j : JoinedBookRow) :
    getProp (projectBook j) "ratings_count" = pgToVal j.ratings_count := by
  simp [projectBook, getProp]

theorem mem_fetchBooks (db : RelDB) (j : JoinedBookRow) (hj : j ∈ fetchBooks db) :
    j.book ∈ db.books ∧
    ∃ ropt ∈ joinMatches (db.ratings.filter fun r => r.book_id == j.book.book_id),
      j.avg_rating = (ropt.map RatingsRow.avg_rating).getD .pnull ∧
      j.ratings_count = (ropt.map RatingsRow.ratings_count).getD .pnull := by
  simp only [fetchBooks, List.mem_flatMap, List.mem_map] at hj
  obtain ⟨b, hb, ropt, hropt, popt, hpopt, eopt, heopt, rfl⟩ := hj
  exact ⟨hb, ropt, hropt, rfl, rfl⟩

/-- Variant of `sampleDB` with the book's rating-satellite row present but carrying an
`avg_rating` of 0. -/
def c4xdb : RelDB :=
  { sampleDB with ratings :=
      [{ book_id := 1, avg_rating := .pnum 0, ratings_count := .pint 10 }] }

/-- Counterexample to claim C4: the rating satellite row for book 1 is present
(with `avg_rating = 0`), yet the projected `avg_rating` is null — the
projection is null not exactly when the satellite row is absent, because the
guard is Python truthiness of the fetched value. -/
theorem book_rating_counterexample :
    (c4xdb.ratings.filter fun r => r.book_id == 1) =
      [{ book_id := 1, avg_rating := .pnum 0, ratings_count := .pint 10 }] ∧
    ((fetchBooks c4xdb).map fun j => getProp (projectBook j) "avg_rating") =
      [Val.null] := by decide

/-- Amended claim C4: for a fetched book row, when the rating satellite has
no row for the book both `avg_rating` and `ratings_count` are projected as
null; when it has exactly one row, `ratings_count` passes through, and
`avg_rating` is the float of the satellite value when that value is a
nonzero number, but null when the satellite value is SQL NULL or 0. -/
theorem book_rating_projection_amended (db : RelDB) (j : JoinedBookRow)
    (hj : j ∈ fetchBooks db) :
    (db.ratings.filter (fun r => r.book_id == j.book.book_id) = [] →
      getProp (projectBook j) "avg_rating" = .null ∧
      getProp (projectBook j) "ratings_count" = .null) ∧
    (∀ r : RatingsRow,
      db.ratings.filter (fun r => r.book_id == j.book.book_id) = [r] →
      getProp (projectBook j) "ratings_count" = pgToVal r.ratings_count ∧
      (r.avg_rating = .pnull → getProp (projectBook j) "avg_rating" = .null) ∧
      (r.avg_rating = .pnum 0 → getProp (projectBook j) "avg_rating" = .null) ∧
      (∀ q : ℚ, q ≠ 0 → r.avg_rating = .pnum q →
        getProp (projectBook j) "avg_rating" = .float q)) := by
  obtain ⟨-, ropt, hropt, havg, hrc⟩ := mem_fetchBooks db j hj
  constructor
  · intro hnil
    rw [hnil] at hropt
    simp [joinMatches] at hropt
    subst hropt
    simp at havg hrc
    rw [getProp_projectBook_avg, getProp_projectBook_rcount, havg, hrc]
    exact ⟨rfl, rfl⟩
  · intro r hr
    rw [hr] at hropt
    simp [joinMatches] at hropt
    subst hropt
    simp at havg hrc
    refine ⟨?_, fun h => ?_, fun h => ?_, fun q hq h => ?_⟩ <;>
      simp_all [getProp_projectBook_avg, getProp_projectBook_rcount,
        pyTruthy, pyFloat]

/-- The single row the book query fetches from `sampleDB`. -/
def c4wRow : JoinedBookRow :=
  { book := { book_id := 1, isbn10 := .pnull, isbn13 := .pstr "9780000000035",
              title := .pstr "T", subtitle := .pnull, description := .pnull,
              language_code := .pnull, publication_year := .pint 2020,
              page_count := .pnull, maturity_rating := .pnull,
              google_books_id := .pnull, google_preview_link := .pnull,
              google_info_link := .pnull, google_canonical_link := .pnull }
    avg_rating := .pnum 5, ratings_count := .pint 10
    format := .pnull, ebook_url := .pnull }

/-- Witness for the amended C4 at the concrete source `sampleDB`. -/
theorem book_rating_projection_amended_witness :
    getProp (projectBook c4wRow) "avg_rating" = .float 5 ∧
    getProp (projectBook c4wRow) "ratings_count" = .int 10 :=
  ⟨((book_rating_projection_amended sampleDB c4wRow (by decide)).2
      { book_id := 1, avg_rating := .pnum 5, ratings_count := .pint 10 }
      (by decide)).2.2.2 5 (by norm_num) rfl,
   ((book_rating_projection_amended sampleDB c4wRow (by decide)).2
      { book_id := 1, avg_rating := .pnum 5, ratings_count := .pint 10 }
      (by decide)).1⟩

/-- Resource events of a run of `transfer.py`: acquisition and release of
the PostgreSQL connection, the Neo4j driver, and the driver session, plus
the run's stages. -/
inductive ResEvent where
  | pgConnect
  | pgClose
  | driverOpen
  | driverClose
  | sessionOpen
  | sessionClose
  | stage (n : Nat)
deriving DecidableEq

/-- Python `with driver.session() as session:` — the session is opened, the
body runs (possibly cut short by an exception), and the session is closed on
exit in both cases. -/
def withSession (body : List ResEvent) : List ResEvent :=
  [.sessionOpen] ++ body ++ [.sessionClose]

/-- The twelve stages of `main()`'s body (reset, index creation, six entity
loads, four relationship loads), truncated at the first failing stage when
the run aborts (`failAt = some k`). -/
def stageEvents (failAt : Option Nat) : List ResEvent :=
  (List.range (match failAt with | none => 12 | some k => min k 12)).map .stage

/-- Resource-event trace of one invocation of `transfer.py`: importing the
module connects to PostgreSQL (line 16) and opens the Neo4j driver
(line 29); `main` wraps all stages in one `with driver.session()` block
(line 136). No `pg_conn.close()`, `pg_cursor.close()` or `driver.close()`
call appears anywhere in the script, so no corresponding event is ever
emitted, whether the run finishes (`failAt = none`) or aborts mid-stage. -/
def runEvents (failAt : Option Nat) : List ResEvent :=
  [.pgConnect, .driverOpen] ++ withSession (stageEvents failAt)

theorem stageEvents_no_admin (failAt : Option Nat) (e : ResEvent)
    (he : ∀ n, ResEvent.stage n ≠ e) : e ∉ stageEvents failAt := by
  simp only [stageEvents, List.mem_map]
  rintro ⟨n, -, hn⟩
  exact he n hn

/-- Counterexample to claim C9: a run that completes all stages never emits a
close event for the relational connection (nor for the graph driver): the
claim that both handles are released when the run finishes is false. -/
theorem connections_released_counterexample :
    ResEvent.pgClose ∉ runEvents none ∧
    ResEvent.driverClose ∉ runEvents none := by decide

/-- Amended claim C9: the relational connection and the graph session are
each acquired exactly once and shared across all stages; the session is
closed when the run finishes or aborts, but the relational connection (and
the graph driver) are never explicitly closed — they are released only at
process exit. -/
theorem connection_lifecycle (failAt : Option Nat) :
    (runEvents failAt).count .pgConnect = 1 ∧
    (runEvents failAt).count .driverOpen = 1 ∧
    (runEvents failAt).count .sessionOpen = 1 ∧
    (runEvents failAt).count .sessionClose = 1 ∧
    ResEvent.pgClose ∉ runEvents failAt ∧
    ResEvent.driverClose ∉ runEvents failAt := by
  have hc : ∀ e : ResEvent, (∀ n, ResEvent.stage n ≠ e) →
      (stageEvents failAt).count e = 0 := fun e he =>
    List.count_eq_zero.mpr (stageEvents_no_admin failAt e he)
  refine ⟨?_, ?_, ?_, ?_, ?_, ?_⟩
  · have h0 := hc .pgConnect (fun n => by simp)
    simp +decide [runEvents, withSession, List.count_append, h0]
  · have h0 := hc .driverOpen (fun n => by simp)
    simp +decide [runEvents, withSession, List.count_append, h0]
  · have h0 := hc .sessionOpen (fun n => by simp)
    simp +decide [runEvents, withSession, List.count_append, h0]
  · have h0 := hc .sessionClose (fun n => by simp)
    simp +decide [runEvents, withSession, List.count_append, h0]
  · have h0 := stageEvents_no_admin failAt .pgClose (fun n => by simp)
    simp +decide [runEvents, withSession, h0]
  · have h0 := stageEvents_no_admin failAt .driverClose (fun n => by simp)
    simp +decide [runEvents, withSession, h0]

/-- A statement of the price-stage transaction function
(`create_price_nodes`, lines 102–125): the bulk Price-node `CREATE`, or the
bulk `PRICED_AT` `MATCH ... CREATE`. -/
inductive TxStmt where
  | createPriceNodesStmt (prices : List Rec)
  | createPricedAtStmt (prices : List Rec)
deriving DecidableEq

/-- Graph effect of one statement of the price-stage transaction. -/
def applyTxStmt : TxStmt → Graph → Graph
  | .createPriceNodesStmt prices, g => unwindCreate "Price" priceKeys prices g
  | .createPricedAtStmt prices, g => createEdgesBy prices "PRICED_AT" "Price" "id" g

/-- Transactional statement execution: statements run in order inside one
transaction; `fails` models the database rejecting a statement (constraint
violation, type mismatch); any failure aborts the whole transaction. -/
def runTx (fails : TxStmt → Bool) : List TxStmt → Graph → Option Graph
  | [], g => some g
  | s :: rest, g =>
      if fails s then none else runTx fails rest (applyTxStmt s g)

/-- Semantics of `session.execute_write`: commit the transaction's result, or roll back
to the pre-transaction graph when the transaction function failed. -/
def execute_write (fails : TxStmt → Bool) (stmts : List TxStmt) (g : Graph) :
    Graph :=
  (runTx fails stmts g).getD g

/-- The two statements `create_price_nodes` issues on the single `tx` handle
of one `execute_write` call (line 218). -/
def price_stage_stmts (prices : List Rec) : List TxStmt :=
  [.createPriceNodesStmt prices, .createPricedAtStmt prices]

/-- Sanity: a failure-free run of the price-stage transaction commits
exactly `create_price_nodes`. -/
theorem runTx_price_stage_ok (prices : List Rec) (g : Graph) :
    runTx (fun _ => false) (price_stage_stmts prices) g =
      some (create_price_nodes prices g) := rfl

/-- Claim C10: the Price stage runs both its statements in one write
transaction, so if the `PRICED_AT` edge statement fails, the transaction
rolls back and none of the stage's Price nodes persist: the graph is
unchanged. -/
theorem price_stage_atomic (fails : TxStmt → Bool) (prices : List Rec)
    (g : Graph) (h : fails (.createPricedAtStmt prices) = true) :
    execute_write fails (price_stage_stmts prices) g = g ∧
    countLabel (execute_write fails (price_stage_stmts prices) g) "Price" =
      countLabel g "Price" := by
  have heq : execute_write fails (price_stage_stmts prices) g = g := by
    cases hf : fails (.createPriceNodesStmt prices) <;>
      simp [execute_write, price_stage_stmts, runTx, hf, h]
  exact ⟨heq, by rw [heq]⟩

/-- A failure oracle rejecting exactly the edge statement. -/
def c10Fails : TxStmt → Bool
  | .createPricedAtStmt _ => true
  | _ => false

/-- Witness for C10: with the edge statement failing on a one-row batch,
the stage leaves the graph untouched. -/
theorem price_stage_atomic_witness :
    execute_write c10Fails (price_stage_stmts [projectPrice c3wRow]) graph0 =
      graph0 ∧
    countLabel
        (execute_write c10Fails (price_stage_stmts [projectPrice c3wRow]) graph0)
        "Price" =
      countLabel graph0 "Price" :=
  price_stage_atomic c10Fails [projectPrice c3wRow] graph0 rfl
